import Mathlib

/-!
Shallow embedding of the query-and-cache backend (`backend/app` of the
repository): the cache-key encoder and cache store (`main.py`, `cache.py`),
the per-entity query engine (`crud.py`), the truncate mutation and the HTTP
handlers' validation/cache path (`main.py`), together with theorems checking
the specification's claims about them.

Modelling conventions:
* Python dict/kwargs parameter mappings become association lists
  `List (String × Option String)` (a `none` value is Python `None`);
  kwargs keys are unique.
* `float` columns (`price`, `rating`, `unit_price`, `total_amount`) are
  modelled as exact integers; the claims only compare them, never round.
* `datetime` columns become `Nat` tick counts; Redis time is an explicit
  `now : Nat` field and `setex` stores the absolute expiry `now + ttl`.
* External stdlib collaborators keep their call shape but are passed in as
  functions: `hashlib.md5(...).hexdigest()` is an abstract `h : String →
  String`, and `json.dumps` / `json.loads` are an abstract serializer pair
  (`json.loads` returning `none` where the real one raises).
* Stateful Redis/SQLAlchemy calls become explicit state passing; a `Bool`
  (or step oracle) argument injects the backend failures that the source's
  `try/except` blocks are written to absorb.
-/

namespace Backend

/-! ### Key Encoder (`main.py`, `generate_cache_key`) -/

/-- The keyword parameters of one `generate_cache_key` call: each key with its
value already rendered to a string by the f-string `f"{k}={v}"`, or `none` for
Python `None`. -/
abbrev Params := List (String × Option String)

/-- The parameters that survive the `if v is not None` filter. -/
def presentParams (ps : Params) : List (String × String) :=
  ps.filterMap fun kv => kv.2.map fun v => (kv.1, v)

/-- Python's tuple comparison used by `sorted(params.items())`: compare keys
first, values only on equal keys (strings compare lexicographically by code
point, i.e. on their character lists).  With the distinct keys of a kwargs
dict the value side is never consulted, so this is exactly the order `sorted`
uses. -/
def pairLe (a b : String × String) : Prop :=
  a.1.data < b.1.data ∨ (a.1.data = b.1.data ∧ a.2.data ≤ b.2.data)

instance : DecidableRel pairLe := fun a b => by
  unfold pairLe; infer_instance

/-- `sorted(params.items())` restricted to the non-`None` parameters (sorting
and the `is not None` filter commute because keys are distinct). -/
def sortedParams (ps : Params) : List (String × String) :=
  List.insertionSort pairLe (presentParams ps)

/-- `param_str = "&".join([f"{k}={v}" for k, v in sorted(params.items()) if v is not None])` -/
def param_str (ps : Params) : String :=
  String.intercalate "&" ((sortedParams ps).map fun kv => kv.1 ++ "=" ++ kv.2)

/-- `cache_string = f"{endpoint}?{param_str}"` -/
def cache_string (endpoint : String) (ps : Params) : String :=
  endpoint ++ "?" ++ param_str ps

/-- `generate_cache_key`: the cache string passed through
`hashlib.md5(...).hexdigest()`; the md5 hex digest is an external stdlib
function of the encoded string, abstracted as `h`. -/
def generate_cache_key (h : String → String) (endpoint : String) (ps : Params) : String :=
  h (cache_string endpoint ps)

instance : IsTrans (String × String) pairLe where
  trans a b c hab hbc := by
    rcases hab with h₁ | ⟨h₁, v₁⟩ <;> rcases hbc with h₂ | ⟨h₂, v₂⟩
    · exact Or.inl (lt_trans h₁ h₂)
    · exact Or.inl (h₂ ▸ h₁)
    · exact Or.inl (h₁ ▸ h₂)
    · exact Or.inr ⟨h₁.trans h₂, le_trans v₁ v₂⟩

instance : IsTotal (String × String) pairLe where
  total a b := by
    rcases lt_trichotomy a.1.data b.1.data with h | h | h
    · exact Or.inl (Or.inl h)
    · rcases le_total a.2.data b.2.data with hv | hv
      · exact Or.inl (Or.inr ⟨h, hv⟩)
      · exact Or.inr (Or.inr ⟨h.symm, hv⟩)
    · exact Or.inr (Or.inl h)

instance : IsAntisymm (String × String) pairLe where
  antisymm a b hab hba := by
    rcases hab with h₁ | ⟨h₁, v₁⟩ <;> rcases hba with h₂ | ⟨h₂, v₂⟩
    · exact absurd (lt_trans h₁ h₂) (lt_irrefl _)
    · exact absurd h₁ (h₂ ▸ lt_irrefl _)
    · exact absurd h₂ (h₁ ▸ lt_irrefl _)
    · exact Prod.ext (String.ext h₁) (String.ext (le_antisymm v₁ v₂))

/-! ### Cache Store (`cache.py`, `CacheManager` over Redis) -/

/-- One Redis entry: the stored string and its absolute expiry time. -/
structure RedisEntry where
  value : String
  expiry : Nat
deriving Repr, DecidableEq

/-- The Redis backend state: the keyspace plus the current clock. -/
structure RedisState where
  store : List (String × RedisEntry)
  now : Nat
deriving Repr, DecidableEq

/-- `redis.get`: the stored string, if the key is present and unexpired. -/
def redis_get (st : RedisState) (k : String) : Option String :=
  match st.store.lookup k with
  | some e => if st.now < e.expiry then some e.value else none
  | none => none

/-- `CacheManager.get`.  `fail` injects a raised transport error, absorbed to
`None` by the `except` branch.  `if value:` is a truthiness test on the
serialized string, and a `loads` failure (`none`) is the swallowed
`json.loads` exception. -/
def cache_get {V : Type} (loads : String → Option V) (fail : Bool)
    (st : RedisState) (k : String) : Option V :=
  if fail then none
  else match redis_get st k with
    | some value => if value = "" then none else loads value
    | none => none

/-- `CacheManager.set`: `setex(key, ttl, json.dumps(value))`, overwriting any
existing entry; returns `false` when the backend raises. -/
def cache_set {V : Type} (dumps : V → String) (fail : Bool)
    (st : RedisState) (k : String) (v : V) (ttl : Nat) : RedisState × Bool :=
  if fail then (st, false)
  else
    ({ st with store := (k, ⟨dumps v, st.now + ttl⟩) :: st.store.filter fun kv => kv.1 ≠ k },
     true)

/-- `CacheManager.delete`: `bool(self.client.delete(key))`.  Redis `DEL`
returns the number of live keys it removed; the method converts that count
with `bool(...)`. -/
def cache_delete (fail : Bool) (st : RedisState) (k : String) : RedisState × Bool :=
  if fail then (st, false)
  else
    let deleted := st.store.countP fun kv => kv.1 = k ∧ st.now < kv.2.expiry
    ({ st with store := st.store.filter fun kv => kv.1 ≠ k }, deleted ≠ 0)

/-- Redis glob matching, modelled for the `"*"` pattern (the only one the
application uses); any other pattern matches literally. -/
def glob_match (pattern k : String) : Bool :=
  pattern = "*" || pattern = k

/-- `CacheManager.clear_pattern`: `keys = client.keys(pattern)` (live keys
only), then `delete(*keys)` when the list is truthy; any raised backend error
is absorbed to `0`. -/
def clear_pattern (fail : Bool) (st : RedisState) (pattern : String) : RedisState × Nat :=
  if fail then (st, 0)
  else
    let keys := (st.store.filter fun kv => glob_match pattern kv.1 && decide (st.now < kv.2.expiry)).map Prod.fst
    if keys.isEmpty then (st, 0)
    else ({ st with store := st.store.filter fun kv => ¬ keys.contains kv.1 }, keys.length)

/-- Advance the Redis clock by `d` (used to state expiry claims). -/
def elapse (st : RedisState) (d : Nat) : RedisState :=
  { st with now := st.now + d }

/-! ### Data model (`models.py`) -/

/-- A `products` row. -/
structure Product where
  id : Nat
  name : String
  description : String
  price : Int
  category : String
  brand : String
  stock_quantity : Nat
  rating : Int
  is_active : Bool
  created_at : Nat
  updated_at : Nat
deriving Repr, DecidableEq

/-- A `users` row. -/
structure User where
  id : Nat
  email : String
  first_name : String
  last_name : String
  phone : String
  address : String
  city : String
  country : String
  is_active : Bool
  created_at : Nat
  updated_at : Nat
deriving Repr, DecidableEq

/-- An `orders` row. -/
structure Order where
  id : Nat
  user_id : Nat
  product_id : Nat
  quantity : Nat
  unit_price : Int
  total_amount : Int
  status : String
  order_date : Nat
deriving Repr, DecidableEq

/-! ### Query Engine (`crud.py`) -/

/-- The paginated dict returned by the `crud.py` list functions. -/
structure PageResult (α : Type) where
  items : List α
  total : Nat
  page : Nat
  size : Nat
  pages : Nat
deriving Repr, DecidableEq

/-- `math.ceil(total / limit)` on the natural numbers the code feeds it. -/
def cdiv (total limit : Nat) : Nat :=
  (total + limit - 1) / limit

/-- Python `str.lower()` / SQL lowercasing: characterwise lowercase. -/
def py_lower (s : String) : String :=
  ⟨s.data.map Char.toLower⟩

/-- SQL `column ILIKE '%pat%'`: case-insensitive substring containment. -/
def ilike_contains (field pat : String) : Bool :=
  decide ((py_lower pat).data <:+: (py_lower field).data)

/-- The conjunction of filters `get_products` builds.  Each branch guards with
Python truthiness (`if search:` etc. skip `None` and `""`), while the price
bounds use `is not None` so `0` still filters. -/
def product_matches (search category brand : Option String)
    (min_price max_price : Option Int) (p : Product) : Bool :=
  (match search with
   | some s => decide (s = "") ||
       (ilike_contains p.name s || ilike_contains p.description s || ilike_contains p.brand s)
   | none => true)
  && (match category with
      | some c => decide (c = "") || decide (p.category = c)
      | none => true)
  && (match brand with
      | some b => decide (b = "") || decide (p.brand = b)
      | none => true)
  && (match min_price with
      | some m => decide (m ≤ p.price)
      | none => true)
  && (match max_price with
      | some m => decide (p.price ≤ m)
      | none => true)

/-- Column names of the `Product` model: the attributes `getattr(Product,
sort_by, Product.id)` can resolve to a sortable column. -/
def product_columns : List String :=
  ["id", "name", "description", "price", "category", "brand",
   "stock_quantity", "rating", "is_active", "created_at", "updated_at"]

/-- The column `getattr(Product, sort_by, Product.id)` hands to `ORDER BY`,
on the inputs where the call completes: a column name selects itself, and a
name that resolves to no attribute at all falls back to the `id` column.  A
`sort_by` naming a non-column class attribute (the `orders` relationship,
`metadata`, dunders, …) is NOT in this function's domain of fidelity: there
`getattr` returns that attribute and the subsequent `.asc()`/`.desc()`
raises `AttributeError` — that raising path is modelled by `product_getattr`
and `get_products_checked` below. -/
def product_sort_key (sort_by : String) : String :=
  if sort_by ∈ product_columns then sort_by else "id"

/-- Ascending comparison of two products on a named column. -/
def product_sort_le (col : String) (a b : Product) : Bool :=
  match col with
  | "name" => decide (a.name ≤ b.name)
  | "description" => decide (a.description ≤ b.description)
  | "price" => decide (a.price ≤ b.price)
  | "category" => decide (a.category ≤ b.category)
  | "brand" => decide (a.brand ≤ b.brand)
  | "stock_quantity" => decide (a.stock_quantity ≤ b.stock_quantity)
  | "rating" => decide (a.rating ≤ b.rating)
  | "is_active" => decide (a.is_active ≤ b.is_active)
  | "created_at" => decide (a.created_at ≤ b.created_at)
  | "updated_at" => decide (a.updated_at ≤ b.updated_at)
  | _ => decide (a.id ≤ b.id)

/-- The `ORDER BY` relation `get_products` applies: the resolved column,
descending exactly when `sort_order.lower() == "desc"`. -/
def product_order_rel (sort_by sort_order : String) (a b : Product) : Prop :=
  (if py_lower sort_order = "desc"
   then product_sort_le (product_sort_key sort_by) b a
   else product_sort_le (product_sort_key sort_by) a b) = true

instance (sort_by sort_order : String) : DecidableRel (product_order_rel sort_by sort_order) :=
  fun a b => by unfold product_order_rel; infer_instance

/-- `crud.get_products`: filter, count, sort, then `offset(skip).limit(limit)`. -/
def get_products (db : List Product) (skip limit : Nat)
    (search category brand : Option String) (min_price max_price : Option Int)
    (sort_by sort_order : String) : PageResult Product :=
  let filtered := db.filter (product_matches search category brand min_price max_price)
  let total := filtered.length
  let sorted := List.insertionSort (product_order_rel sort_by sort_order) filtered
  { items := (sorted.drop skip).take limit
    total := total
    page := skip / limit + 1
    size := limit
    pages := cdiv total limit }

/-- The filters of `crud.get_users` (same truthiness guards). -/
def user_matches (search city country : Option String) (u : User) : Bool :=
  (match search with
   | some s => decide (s = "") ||
       (ilike_contains u.first_name s || ilike_contains u.last_name s || ilike_contains u.email s)
   | none => true)
  && (match city with
      | some c => decide (c = "") || decide (u.city = c)
      | none => true)
  && (match country with
      | some c => decide (c = "") || decide (u.country = c)
      | none => true)

/-- Column names of the `User` model. -/
def user_columns : List String :=
  ["id", "email", "first_name", "last_name", "phone", "address", "city",
   "country", "is_active", "created_at", "updated_at"]

/-- The column `getattr(User, sort_by, User.id)` hands to `ORDER BY`, on the
inputs where the call completes (see `product_sort_key` for the raising
non-column attribute case, modelled by `user_getattr`/`get_users_checked`). -/
def user_sort_key (sort_by : String) : String :=
  if sort_by ∈ user_columns then sort_by else "id"

/-- Ascending comparison of two users on a named column. -/
def user_sort_le (col : String) (a b : User) : Bool :=
  match col with
  | "email" => decide (a.email ≤ b.email)
  | "first_name" => decide (a.first_name ≤ b.first_name)
  | "last_name" => decide (a.last_name ≤ b.last_name)
  | "phone" => decide (a.phone ≤ b.phone)
  | "address" => decide (a.address ≤ b.address)
  | "city" => decide (a.city ≤ b.city)
  | "country" => decide (a.country ≤ b.country)
  | "is_active" => decide (a.is_active ≤ b.is_active)
  | "created_at" => decide (a.created_at ≤ b.created_at)
  | "updated_at" => decide (a.updated_at ≤ b.updated_at)
  | _ => decide (a.id ≤ b.id)

/-- The `ORDER BY` relation of `get_users`. -/
def user_order_rel (sort_by sort_order : String) (a b : User) : Prop :=
  (if py_lower sort_order = "desc"
   then user_sort_le (user_sort_key sort_by) b a
   else user_sort_le (user_sort_key sort_by) a b) = true

instance (sort_by sort_order : String) : DecidableRel (user_order_rel sort_by sort_order) :=
  fun a b => by unfold user_order_rel; infer_instance

/-- `crud.get_users`. -/
def get_users (db : List User) (skip limit : Nat)
    (search city country : Option String)
    (sort_by sort_order : String) : PageResult User :=
  let filtered := db.filter (user_matches search city country)
  let total := filtered.length
  let sorted := List.insertionSort (user_order_rel sort_by sort_order) filtered
  { items := (sorted.drop skip).take limit
    total := total
    page := skip / limit + 1
    size := limit
    pages := cdiv total limit }

/-- The filters of `crud.get_orders`.  `if user_id:` is a truthiness test, so
`0` is skipped like `None`; likewise `if status:` skips `""`. -/
def order_matches (user_id : Option Nat) (status : Option String) (o : Order) : Bool :=
  (match user_id with
   | some u => decide (u = 0) || decide (o.user_id = u)
   | none => true)
  && (match status with
      | some s => decide (s = "") || decide (o.status = s)
      | none => true)

/-- Column names of the `Order` model. -/
def order_columns : List String :=
  ["id", "user_id", "product_id", "quantity", "unit_price", "total_amount",
   "status", "order_date"]

/-- The column `getattr(Order, sort_by, Order.id)` hands to `ORDER BY`, on
the inputs where the call completes (see `product_sort_key` for the raising
non-column attribute case, modelled by `order_getattr`/`get_orders_checked`). -/
def order_sort_key (sort_by : String) : String :=
  if sort_by ∈ order_columns then sort_by else "id"

/-- Ascending comparison of two orders on a named column. -/
def order_sort_le (col : String) (a b : Order) : Bool :=
  match col with
  | "user_id" => decide (a.user_id ≤ b.user_id)
  | "product_id" => decide (a.product_id ≤ b.product_id)
  | "quantity" => decide (a.quantity ≤ b.quantity)
  | "unit_price" => decide (a.unit_price ≤ b.unit_price)
  | "total_amount" => decide (a.total_amount ≤ b.total_amount)
  | "status" => decide (a.status ≤ b.status)
  | "order_date" => decide (a.order_date ≤ b.order_date)
  | _ => decide (a.id ≤ b.id)

/-- The `ORDER BY` relation of `get_orders`. -/
def order_order_rel (sort_by sort_order : String) (a b : Order) : Prop :=
  (if py_lower sort_order = "desc"
   then order_sort_le (order_sort_key sort_by) b a
   else order_sort_le (order_sort_key sort_by) a b) = true

instance (sort_by sort_order : String) : DecidableRel (order_order_rel sort_by sort_order) :=
  fun a b => by unfold order_order_rel; infer_instance

/-- `crud.get_orders` (the `joinedload` options only eager-load the two
relationships; they change no row of the result). -/
def get_orders (db : List Order) (skip limit : Nat)
    (user_id : Option Nat) (status : Option String)
    (sort_by sort_order : String) : PageResult Order :=
  let filtered := db.filter (order_matches user_id status)
  let total := filtered.length
  let sorted := List.insertionSort (order_order_rel sort_by sort_order) filtered
  { items := (sorted.drop skip).take limit
    total := total
    page := skip / limit + 1
    size := limit
    pages := cdiv total limit }

/-! ### Sort-column resolution with the raising path
(`getattr(Model, sort_by, Model.id)` followed by `.asc()`/`.desc()`)

`getattr` returns its default only when the name resolves to NO attribute of
the class.  A name that resolves to a non-column class attribute — a
relationship, the declarative machinery (`metadata`, `registry`, `__table__`,
`__mapper__`), `__tablename__`, the `object` dunders — is returned as-is, and
the subsequent `.asc()`/`.desc()` then raises `AttributeError` instead of
falling back to `id`.  Which non-column names resolve is decided by the
Python/SQLAlchemy runtime (the `object` dunder set is open-ended), so the
resolution table for non-column names is a parameter `resolves`; the
`*_noncolumn_attrs` lists record members the source guarantees, for use in
concrete witnesses. -/

/-- Outcome of resolving `sort_by` on a model class: a mapped column (usable
in `ORDER BY`), or a non-column attribute on which `.asc()`/`.desc()`
raises. -/
inductive GetattrResult where
  | column (name : String)
  | nonColumn
deriving Repr, DecidableEq

/-- Non-column attribute names the source guarantees on the `Product` class:
the `orders` relationship from `models.py` plus the declarative machinery.
(The runtime resolves more, e.g. the `object` dunders; theorems quantify over
the full table.) -/
def product_noncolumn_attrs : List String :=
  ["orders", "metadata", "registry", "__tablename__", "__table__", "__mapper__", "__init__"]

/-- Non-column attribute names the source guarantees on the `User` class. -/
def user_noncolumn_attrs : List String :=
  ["orders", "metadata", "registry", "__tablename__", "__table__", "__mapper__", "__init__"]

/-- Non-column attribute names the source guarantees on the `Order` class:
the `user` and `product` relationships plus the declarative machinery. -/
def order_noncolumn_attrs : List String :=
  ["user", "product", "metadata", "registry", "__tablename__", "__table__", "__mapper__", "__init__"]

/-- `getattr(Product, sort_by, Product.id)`: a column name resolves to that
column; a non-column name the class resolves (per the runtime table
`resolves`) yields the raising outcome; only a name resolving to nothing
falls back to the `id` column. -/
def product_getattr (resolves : String → Bool) (sort_by : String) : GetattrResult :=
  if sort_by ∈ product_columns then .column sort_by
  else if resolves sort_by then .nonColumn
  else .column "id"

/-- `getattr(User, sort_by, User.id)` with the raising outcome. -/
def user_getattr (resolves : String → Bool) (sort_by : String) : GetattrResult :=
  if sort_by ∈ user_columns then .column sort_by
  else if resolves sort_by then .nonColumn
  else .column "id"

/-- `getattr(Order, sort_by, Order.id)` with the raising outcome. -/
def order_getattr (resolves : String → Bool) (sort_by : String) : GetattrResult :=
  if sort_by ∈ order_columns then .column sort_by
  else if resolves sort_by then .nonColumn
  else .column "id"

/-- `crud.get_products` with the sort-column resolution made explicit:
`.error ()` is the `AttributeError` escaping from `sort_column.asc()` /
`.desc()` when `getattr` resolved a non-column attribute; otherwise the
function completes as `get_products` on the resolved column. -/
def get_products_checked (resolves : String → Bool) (db : List Product) (skip limit : Nat)
    (search category brand : Option String) (min_price max_price : Option Int)
    (sort_by sort_order : String) : Except Unit (PageResult Product) :=
  match product_getattr resolves sort_by with
  | .nonColumn => .error ()
  | .column c =>
      .ok (get_products db skip limit search category brand min_price max_price c sort_order)

/-- `crud.get_users` with the sort-column resolution made explicit. -/
def get_users_checked (resolves : String → Bool) (db : List User) (skip limit : Nat)
    (search city country : Option String)
    (sort_by sort_order : String) : Except Unit (PageResult User) :=
  match user_getattr resolves sort_by with
  | .nonColumn => .error ()
  | .column c => .ok (get_users db skip limit search city country c sort_order)

/-- `crud.get_orders` with the sort-column resolution made explicit. -/
def get_orders_checked (resolves : String → Bool) (db : List Order) (skip limit : Nat)
    (user_id : Option Nat) (status : Option String)
    (sort_by sort_order : String) : Except Unit (PageResult Order) :=
  match order_getattr resolves sort_by with
  | .nonColumn => .error ()
  | .column c => .ok (get_orders db skip limit user_id status c sort_order)

/-! ### Truncate mutation (`crud.truncate_all_data`) -/

/-- The three tables of the relational store. -/
structure DBState where
  products : List Product
  users : List User
  orders : List Order
deriving Repr, DecidableEq

/-- A SQLAlchemy session: the committed database plus the session's pending
view (counts and deletes act on `pending`; only `commit` publishes it). -/
structure Session where
  committed : DBState
  pending : DBState
deriving Repr, DecidableEq

/-- The dict `truncate_all_data` returns: `success`, plus the
`deleted_counts` entries for orders, users and products. -/
structure TruncResult where
  success : Bool
  orders_deleted : Nat
  users_deleted : Nat
  products_deleted : Nat
deriving Repr, DecidableEq

/-- The `except` branch: `db.rollback()` discards the pending changes and the
function reports `success: False` with all-zero `deleted_counts`. -/
def trunc_rollback (s : Session) : Session × TruncResult :=
  ({ s with pending := s.committed }, ⟨false, 0, 0, 0⟩)

/-- `crud.truncate_all_data`.  The storage calls run in source order — count
orders, delete orders, count users, delete users, count products, delete
products, commit — and `oracle i = true` makes the `i`-th call raise, landing
in the `except` branch. -/
def truncate_all_data (s : Session) (oracle : Nat → Bool) : Session × TruncResult :=
  if oracle 0 then trunc_rollback s else
  let orders_deleted := s.pending.orders.length
  if oracle 1 then trunc_rollback s else
  let s := { s with pending := { s.pending with orders := [] } }
  if oracle 2 then trunc_rollback s else
  let users_deleted := s.pending.users.length
  if oracle 3 then trunc_rollback s else
  let s := { s with pending := { s.pending with users := [] } }
  if oracle 4 then trunc_rollback s else
  let products_deleted := s.pending.products.length
  if oracle 5 then trunc_rollback s else
  let s := { s with pending := { s.pending with products := [] } }
  if oracle 6 then trunc_rollback s else
  let s := { s with committed := s.pending }
  (s, ⟨true, orders_deleted, users_deleted, products_deleted⟩)

/-! ### Status enums (`schemas.OrderStatus` vs `seed_data.seed_orders`) -/

/-- The members of `schemas.OrderStatus`, the closed set of values
`OrderQueryParams.status` accepts as an order-list filter. -/
def order_status_values : List String :=
  ["pending", "confirmed", "shipped", "delivered", "cancelled"]

/-- Whether a status string is a valid `status` filter for the order list. -/
def order_status_filter_accepted (s : String) : Bool :=
  order_status_values.contains s

/-- The `statuses` pool `seed_data.seed_orders` draws order statuses from. -/
def seed_order_statuses : List String :=
  ["pending", "processing", "shipped", "delivered", "cancelled"]

/-! ### HTTP handlers (`main.py`) -/

/-- What a handler hands back: a 400 with its detail string, or a payload. -/
inductive ApiResult (α : Type) where
  | badRequest (detail : String)
  | ok (val : α)
deriving Repr, DecidableEq

/-- The external collaborators a list handler uses on its cache path: the md5
hex digest and the `json` codec for the response payload. -/
structure CacheCtx (V : Type) where
  h : String → String
  dumps : V → String
  loads : String → Option V

/-- `ProductQueryParams` after FastAPI parsing: the typed parameter object
(`sort_by`/`sort_order` carried as their `.value` strings). -/
structure ProductQueryParams where
  page : Int
  size : Int
  search : Option String
  category : Option String
  brand : Option String
  min_price : Option Int
  max_price : Option Int
  sort_by : String
  sort_order : String

/-- The `GET /products` handler: the explicit `sort_order`/`page`/`size`
validations, then the cache-key → cache-get → (miss: query, cache-set) path.
`getFail`/`setFail` inject cache-backend failures; a present decoded payload
is treated as a hit (`if cached_result:` — the cached dict is non-empty). -/
def get_products_endpoint (ctx : CacheCtx (PageResult Product)) (getFail setFail : Bool)
    (p : ProductQueryParams) (st : RedisState) (db : List Product) :
    ApiResult (PageResult Product) × RedisState :=
  if p.sort_order ≠ "asc" ∧ p.sort_order ≠ "desc" then
    (.badRequest "sort_order must be either 'asc' or 'desc'", st)
  else if p.page < 1 then
    (.badRequest "Page must be greater than 0", st)
  else if p.size < 1 ∨ 1000 < p.size then
    (.badRequest "Size must be between 1 and 1000", st)
  else
    let key := generate_cache_key ctx.h "products"
      [("page", some (toString p.page)), ("size", some (toString p.size)),
       ("search", p.search), ("category", p.category), ("brand", p.brand),
       ("min_price", p.min_price.map toString), ("max_price", p.max_price.map toString),
       ("sort_by", some p.sort_by), ("sort_order", some p.sort_order)]
    match cache_get ctx.loads getFail st key with
    | some cached => (.ok cached, st)
    | none =>
      let skip := ((p.page - 1) * p.size).toNat
      let result := get_products db skip p.size.toNat p.search p.category p.brand
        p.min_price p.max_price p.sort_by p.sort_order
      ((.ok result), (cache_set ctx.dumps setFail st key result 300).1)

/-- `UserQueryParams` after FastAPI parsing. -/
structure UserQueryParams where
  page : Int
  size : Int
  search : Option String
  city : Option String
  country : Option String
  sort_by : String
  sort_order : String

/-- The `GET /users` handler. -/
def get_users_endpoint (ctx : CacheCtx (PageResult User)) (getFail setFail : Bool)
    (p : UserQueryParams) (st : RedisState) (db : List User) :
    ApiResult (PageResult User) × RedisState :=
  if p.sort_order ≠ "asc" ∧ p.sort_order ≠ "desc" then
    (.badRequest "sort_order must be either 'asc' or 'desc'", st)
  else if p.page < 1 then
    (.badRequest "Page must be greater than 0", st)
  else if p.size < 1 ∨ 1000 < p.size then
    (.badRequest "Size must be between 1 and 1000", st)
  else
    let key := generate_cache_key ctx.h "users"
      [("page", some (toString p.page)), ("size", some (toString p.size)),
       ("search", p.search), ("city", p.city), ("country", p.country),
       ("sort_by", some p.sort_by), ("sort_order", some p.sort_order)]
    match cache_get ctx.loads getFail st key with
    | some cached => (.ok cached, st)
    | none =>
      let skip := ((p.page - 1) * p.size).toNat
      let result := get_users db skip p.size.toNat p.search p.city p.country
        p.sort_by p.sort_order
      ((.ok result), (cache_set ctx.dumps setFail st key result 300).1)

/-- `OrderQueryParams` after FastAPI parsing (`status` carried as
`params.status.value if params.status else None`). -/
structure OrderQueryParams where
  page : Int
  size : Int
  user_id : Option Int
  status : Option String
  sort_by : String
  sort_order : String

/-- The `GET /orders` handler (adds the `user_id ≥ 1` validation). -/
def get_orders_endpoint (ctx : CacheCtx (PageResult Order)) (getFail setFail : Bool)
    (p : OrderQueryParams) (st : RedisState) (db : List Order) :
    ApiResult (PageResult Order) × RedisState :=
  if p.sort_order ≠ "asc" ∧ p.sort_order ≠ "desc" then
    (.badRequest "sort_order must be either 'asc' or 'desc'", st)
  else if p.page < 1 then
    (.badRequest "Page must be greater than 0", st)
  else if p.size < 1 ∨ 1000 < p.size then
    (.badRequest "Size must be between 1 and 1000", st)
  else if p.user_id.any (fun u => u < 1) then
    (.badRequest "User ID must be greater than 0", st)
  else
    let key := generate_cache_key ctx.h "orders"
      [("page", some (toString p.page)), ("size", some (toString p.size)),
       ("user_id", p.user_id.map toString), ("status", p.status),
       ("sort_by", some p.sort_by), ("sort_order", some p.sort_order)]
    match cache_get ctx.loads getFail st key with
    | some cached => (.ok cached, st)
    | none =>
      let skip := ((p.page - 1) * p.size).toNat
      let result := get_orders db skip p.size.toNat (p.user_id.map Int.toNat) p.status
        p.sort_by p.sort_order
      ((.ok result), (cache_set ctx.dumps setFail st key result 300).1)

/-- The body of the `DELETE /truncate-all` response, or the 500 raised when
`truncate_all_data` reports failure. -/
inductive TruncateEndpointResult where
  | ok (orders_deleted users_deleted products_deleted : Nat) (cache_cleared : Bool)
  | internalError
deriving Repr, DecidableEq

/-- The `DELETE /truncate-all` handler: run the truncate, call
`cache.clear_pattern("*")` (its return value is dropped), then answer with
`"cache_cleared": True` on success or a 500 on failure. -/
def truncate_all_data_endpoint (s : Session) (oracle : Nat → Bool)
    (cacheFail : Bool) (st : RedisState) :
    TruncateEndpointResult × Session × RedisState :=
  let sr := truncate_all_data s oracle
  let st' := (clear_pattern cacheFail st "*").1
  if sr.2.success then
    (.ok sr.2.orders_deleted sr.2.users_deleted sr.2.products_deleted true, sr.1, st')
  else
    (.internalError, sr.1, st')

/-! ### C1 — the cache key is a pure function of the present parameters -/

/-- C1: for every endpoint and any two parameter mappings carrying the same
non-absent key/value pairs — whatever their construction order, and whatever
extra `None`-valued parameters either contains — `generate_cache_key` returns
the same key: absent parameters are dropped and the rest are ordered by key
name before hashing. -/
theorem c1_generate_cache_key_pure (h : String → String) (endpoint : String)
    (ps₁ ps₂ : Params)
    (hk₁ : (ps₁.map Prod.fst).Nodup) (hk₂ : (ps₂.map Prod.fst).Nodup)
    (hsame : (presentParams ps₁).Perm (presentParams ps₂)) :
    generate_cache_key h endpoint ps₁ = generate_cache_key h endpoint ps₂ := by
  have hs : sortedParams ps₁ = sortedParams ps₂ :=
    List.eq_of_perm_of_sorted
      (((List.perm_insertionSort pairLe _).trans hsame).trans
        (List.perm_insertionSort pairLe _).symm)
      (List.sorted_insertionSort pairLe _) (List.sorted_insertionSort pairLe _)
  unfold generate_cache_key cache_string param_str
  rw [hs]

/-- Witness for C1: the key for `size=50, page=1, search=None` equals the key
for `page=1, size=50`. -/
theorem c1_generate_cache_key_pure_witness :
    generate_cache_key (fun s => s) "products"
        [("size", some "50"), ("page", some "1"), ("search", none)] =
      generate_cache_key (fun s => s) "products"
        [("page", some "1"), ("size", some "50")] :=
  c1_generate_cache_key_pure (fun s => s) "products" _ _
    (by decide) (by decide) (by decide)

/-! ### C2 — pagination metadata -/

/-- C2: for a requested `page ≥ 1` and `size ≥ 1` (the handler passes
`skip = (page - 1) * size` and `limit = size` to the query engine), the list
result's `pages` field is `⌈total / size⌉` — also characterised as the least
page count covering all matching rows — and its `page` field equals the
requested page number. -/
theorem c2_pagination_metadata (db : List Product)
    (search category brand : Option String) (min_price max_price : Option Int)
    (sort_by sort_order : String) (page size : Nat)
    (hp : 1 ≤ page) (hs : 1 ≤ size) :
    (get_products db ((page - 1) * size) size search category brand min_price max_price
        sort_by sort_order).page = page
    ∧ (get_products db ((page - 1) * size) size search category brand min_price max_price
        sort_by sort_order).pages
      = (get_products db ((page - 1) * size) size search category brand min_price max_price
          sort_by sort_order).total ⌈/⌉ size
    ∧ ∀ m : Nat,
        ((get_products db ((page - 1) * size) size search category brand min_price max_price
            sort_by sort_order).pages ≤ m
         ↔ (get_products db ((page - 1) * size) size search category brand min_price max_price
              sort_by sort_order).total ≤ size * m) := by
  have hpages : (get_products db ((page - 1) * size) size search category brand min_price
      max_price sort_by sort_order).pages
      = (get_products db ((page - 1) * size) size search category brand min_price max_price
          sort_by sort_order).total ⌈/⌉ size := by
    rw [Nat.ceilDiv_eq_add_pred_div]; rfl
  refine ⟨?_, hpages, ?_⟩
  · show (page - 1) * size / size + 1 = page
    rw [Nat.mul_div_cancel _ (by omega)]
    omega
  · intro m
    rw [hpages, ← smul_eq_mul]
    exact ceilDiv_le_iff_le_smul (by omega)

/-- Witness for C2: page 3 of size 10 over an empty table echoes `page = 3`. -/
theorem c2_pagination_metadata_witness :
    (get_products [] ((3 - 1) * 10) 10 none none none none none "id" "asc").page = 3 :=
  (c2_pagination_metadata [] none none none none none "id" "asc" 3 10
    (by decide) (by decide)).1

/-! ### C3 — `total` counts the matching rows before pagination -/

/-- C3: the `total` of a product list equals the number of rows of the full
collection satisfying the conjunctive filter predicate, every returned item
satisfies that same predicate, and `total` is independent of `skip`/`limit`
(the count is taken before pagination). -/
theorem c3_total_matches_filter (db : List Product) (skip limit : Nat)
    (search category brand : Option String) (min_price max_price : Option Int)
    (sort_by sort_order : String) :
    (get_products db skip limit search category brand min_price max_price
        sort_by sort_order).total
      = db.countP (product_matches search category brand min_price max_price)
    ∧ (∀ p ∈ (get_products db skip limit search category brand min_price max_price
          sort_by sort_order).items,
        product_matches search category brand min_price max_price p = true)
    ∧ ∀ skip' limit',
        (get_products db skip' limit' search category brand min_price max_price
            sort_by sort_order).total
          = (get_products db skip limit search category brand min_price max_price
              sort_by sort_order).total := by
  refine ⟨(List.countP_eq_length_filter _ _).symm, ?_, fun _ _ => rfl⟩
  intro p hp
  have h₁ : p ∈ List.insertionSort (product_order_rel sort_by sort_order)
      (db.filter (product_matches search category brand min_price max_price)) :=
    List.mem_of_mem_drop (List.mem_of_mem_take hp)
  have h₂ : p ∈ db.filter (product_matches search category brand min_price max_price) :=
    (List.mem_insertionSort _).mp h₁
  exact List.of_mem_filter h₂

/-! ### C4 — cache round-trip, expiry, and malformed entries -/

/-- A concrete `json` codec instance for the witness below. -/
def bool_dumps : Bool → String := fun b => if b then "true" else "false"

/-- The matching concrete deserializer. -/
def bool_loads : String → Option Bool := fun s =>
  if s = "true" then some true else if s = "false" then some false else none

/-- C4: for every key, serializable value (one the codec round-trips, with a
non-empty serialization — `json.dumps` never returns `""`) and positive ttl,
a `get` immediately after `set` returns the value; once the ttl has elapsed
the `get` is a miss; and a stored value the deserializer rejects is a miss,
not an error. -/
theorem c4_cache_roundtrip {V : Type} (dumps : V → String) (loads : String → Option V)
    (st : RedisState) (k : String) (v : V) (ttl : Nat)
    (hser : loads (dumps v) = some v) (hne : dumps v ≠ "") (httl : 0 < ttl) :
    cache_get loads false (cache_set dumps false st k v ttl).1 k = some v
    ∧ (∀ d, ttl ≤ d →
        cache_get loads false (elapse (cache_set dumps false st k v ttl).1 d) k = none)
    ∧ ∀ (st' : RedisState) (s : String), redis_get st' k = some s → loads s = none →
        cache_get loads false st' k = none := by
  refine ⟨?_, ?_, ?_⟩
  · simp [cache_get, cache_set, redis_get, List.lookup, hne, hser, httl]
  · intro d hd
    have hcond : ¬ (st.now + d < st.now + ttl) := by omega
    simp [cache_get, cache_set, redis_get, elapse, List.lookup, hcond]
  · intro st' s h1 h2
    unfold cache_get
    rw [h1]
    by_cases hs : s = "" <;> simp [hs, h2]

/-- Witness for C4: with a concrete boolean codec, `get` right after
`set k true 5` on an empty store returns `true`. -/
theorem c4_cache_roundtrip_witness :
    cache_get bool_loads false (cache_set bool_dumps false ⟨[], 0⟩ "k" true 5).1 "k"
      = some true :=
  (c4_cache_roundtrip bool_dumps bool_loads ⟨[], 0⟩ "k" true 5
    (by decide) (by decide) (by decide)).1

/-! ### Sample rows used by concrete witnesses and counterexamples -/

/-- A sample product row with `id = 1`. -/
def prodA : Product := ⟨1, "alpha", "", 10, "cat", "br", 0, 0, true, 0, 0⟩

/-- A sample product row with `id = 2`. -/
def prodB : Product := ⟨2, "beta", "", 20, "cat", "br", 0, 0, true, 0, 0⟩

/-- A sample user row. -/
def userA : User := ⟨1, "ann@example.com", "Ann", "Lee", "", "", "City", "Country", true, 0, 0⟩

/-- Sample order rows. -/
def ordA : Order := ⟨1, 1, 1, 1, 10, 10, "pending", 0⟩

/-- Second sample order row. -/
def ordB : Order := ⟨2, 1, 2, 2, 10, 20, "shipped", 0⟩

/-- Third sample order row. -/
def ordC : Order := ⟨3, 1, 1, 1, 10, 10, "processing", 0⟩

/-! ### C5 — truncate-all is atomic with faithful counts -/

/-- C5: starting from a session with no pending changes, a successful
truncate reports exactly the pre-truncate row counts and leaves all three
tables empty, while any storage failure during the mutation rolls the whole
mutation back (the committed database is unchanged) and reports the failure
outcome with all-zero, never partial, deleted counts. -/
theorem c5_truncate_atomic (s : Session) (oracle : Nat → Bool)
    (hclean : s.pending = s.committed) :
    ((truncate_all_data s oracle).2.success = true →
      (truncate_all_data s oracle).2.orders_deleted = s.committed.orders.length
      ∧ (truncate_all_data s oracle).2.users_deleted = s.committed.users.length
      ∧ (truncate_all_data s oracle).2.products_deleted = s.committed.products.length
      ∧ (truncate_all_data s oracle).1.committed = ⟨[], [], []⟩)
    ∧ ((truncate_all_data s oracle).2.success = false →
      (truncate_all_data s oracle).1.committed = s.committed
      ∧ (truncate_all_data s oracle).2.orders_deleted = 0
      ∧ (truncate_all_data s oracle).2.users_deleted = 0
      ∧ (truncate_all_data s oracle).2.products_deleted = 0) := by
  unfold truncate_all_data trunc_rollback
  split_ifs <;> constructor <;> intro hsucc <;> simp_all [hclean]

/-- Witness for C5: a store with 1 product, 1 user and 3 orders and a
failure-free run. -/
theorem c5_truncate_atomic_witness :
    ((truncate_all_data ⟨⟨[prodA], [userA], [ordA, ordB, ordC]⟩,
          ⟨[prodA], [userA], [ordA, ordB, ordC]⟩⟩ (fun _ => false)).2.success = true →
      (truncate_all_data ⟨⟨[prodA], [userA], [ordA, ordB, ordC]⟩,
          ⟨[prodA], [userA], [ordA, ordB, ordC]⟩⟩ (fun _ => false)).2.orders_deleted
        = (⟨[prodA], [userA], [ordA, ordB, ordC]⟩ : DBState).orders.length
      ∧ (truncate_all_data ⟨⟨[prodA], [userA], [ordA, ordB, ordC]⟩,
          ⟨[prodA], [userA], [ordA, ordB, ordC]⟩⟩ (fun _ => false)).2.users_deleted
        = (⟨[prodA], [userA], [ordA, ordB, ordC]⟩ : DBState).users.length
      ∧ (truncate_all_data ⟨⟨[prodA], [userA], [ordA, ordB, ordC]⟩,
          ⟨[prodA], [userA], [ordA, ordB, ordC]⟩⟩ (fun _ => false)).2.products_deleted
        = (⟨[prodA], [userA], [ordA, ordB, ordC]⟩ : DBState).products.length
      ∧ (truncate_all_data ⟨⟨[prodA], [userA], [ordA, ordB, ordC]⟩,
          ⟨[prodA], [userA], [ordA, ordB, ordC]⟩⟩ (fun _ => false)).1.committed = ⟨[], [], []⟩)
    ∧ ((truncate_all_data ⟨⟨[prodA], [userA], [ordA, ordB, ordC]⟩,
          ⟨[prodA], [userA], [ordA, ordB, ordC]⟩⟩ (fun _ => false)).2.success = false →
      (truncate_all_data ⟨⟨[prodA], [userA], [ordA, ordB, ordC]⟩,
          ⟨[prodA], [userA], [ordA, ordB, ordC]⟩⟩ (fun _ => false)).1.committed
        = (⟨[prodA], [userA], [ordA, ordB, ordC]⟩ : DBState)
      ∧ (truncate_all_data ⟨⟨[prodA], [userA], [ordA, ordB, ordC]⟩,
          ⟨[prodA], [userA], [ordA, ordB, ordC]⟩⟩ (fun _ => false)).2.orders_deleted = 0
      ∧ (truncate_all_data ⟨⟨[prodA], [userA], [ordA, ordB, ordC]⟩,
          ⟨[prodA], [userA], [ordA, ordB, ordC]⟩⟩ (fun _ => false)).2.users_deleted = 0
      ∧ (truncate_all_data ⟨⟨[prodA], [userA], [ordA, ordB, ordC]⟩,
          ⟨[prodA], [userA], [ordA, ordB, ordC]⟩⟩ (fun _ => false)).2.products_deleted = 0) :=
  c5_truncate_atomic ⟨⟨[prodA], [userA], [ordA, ordB, ordC]⟩,
    ⟨[prodA], [userA], [ordA, ordB, ordC]⟩⟩ (fun _ => false) rfl

/-! ### C6 — unknown sort field fallback -/

/-- `List.orderedInsert` only consults the relation pointwise, so pointwise
equivalent decidable relations insert identically. -/
lemma orderedInsert_ext {α : Type} (r₁ r₂ : α → α → Prop)
    [DecidableRel r₁] [DecidableRel r₂] (hr : ∀ a b, r₁ a b ↔ r₂ a b)
    (a : α) (l : List α) :
    List.orderedInsert r₁ a l = List.orderedInsert r₂ a l := by
  induction l with
  | nil => rfl
  | cons b t ih =>
    simp only [List.orderedInsert]
    by_cases hc : r₁ a b
    · rw [if_pos hc, if_pos ((hr a b).mp hc)]
    · rw [if_neg hc, if_neg (fun hc2 => hc ((hr a b).mpr hc2)), ih]

/-- `List.insertionSort` with pointwise equivalent relations. -/
lemma insertionSort_ext {α : Type} (r₁ r₂ : α → α → Prop)
    [DecidableRel r₁] [DecidableRel r₂] (hr : ∀ a b, r₁ a b ↔ r₂ a b)
    (l : List α) :
    List.insertionSort r₁ l = List.insertionSort r₂ l := by
  induction l with
  | nil => rfl
  | cons b t ih => simp only [List.insertionSort, ih, orderedInsert_ext r₁ r₂ hr]

/-- Column comparison on products is total. -/
lemma product_sort_le_total (col : String) (a b : Product) :
    product_sort_le col a b = true ∨ product_sort_le col b a = true := by
  unfold product_sort_le
  split <;> simp only [decide_eq_true_eq] <;> exact le_total _ _

/-- Column comparison on products is transitive. -/
lemma product_sort_le_trans (col : String) (a b c : Product) :
    product_sort_le col a b = true → product_sort_le col b c = true →
    product_sort_le col a c = true := by
  unfold product_sort_le
  split <;> simp only [decide_eq_true_eq] <;> exact le_trans

/-- The product `ORDER BY` relation is total. -/
lemma product_order_rel_total (sort_by sort_order : String) (a b : Product) :
    product_order_rel sort_by sort_order a b ∨ product_order_rel sort_by sort_order b a := by
  unfold product_order_rel
  split_ifs <;> exact product_sort_le_total _ _ _

/-- The product `ORDER BY` relation is transitive. -/
lemma product_order_rel_trans (sort_by sort_order : String) (a b c : Product) :
    product_order_rel sort_by sort_order a b → product_order_rel sort_by sort_order b c →
    product_order_rel sort_by sort_order a c := by
  unfold product_order_rel
  split_ifs <;> intro h₁ h₂
  · exact product_sort_le_trans _ _ _ _ h₂ h₁
  · exact product_sort_le_trans _ _ _ _ h₁ h₂

/-- Column comparison on users is total. -/
lemma user_sort_le_total (col : String) (a b : User) :
    user_sort_le col a b = true ∨ user_sort_le col b a = true := by
  unfold user_sort_le
  split <;> simp only [decide_eq_true_eq] <;> exact le_total _ _

/-- Column comparison on users is transitive. -/
lemma user_sort_le_trans (col : String) (a b c : User) :
    user_sort_le col a b = true → user_sort_le col b c = true →
    user_sort_le col a c = true := by
  unfold user_sort_le
  split <;> simp only [decide_eq_true_eq] <;> exact le_trans

/-- The user `ORDER BY` relation is total. -/
lemma user_order_rel_total (sort_by sort_order : String) (a b : User) :
    user_order_rel sort_by sort_order a b ∨ user_order_rel sort_by sort_order b a := by
  unfold user_order_rel
  split_ifs <;> exact user_sort_le_total _ _ _

/-- The user `ORDER BY` relation is transitive. -/
lemma user_order_rel_trans (sort_by sort_order : String) (a b c : User) :
    user_order_rel sort_by sort_order a b → user_order_rel sort_by sort_order b c →
    user_order_rel sort_by sort_order a c := by
  unfold user_order_rel
  split_ifs <;> intro h₁ h₂
  · exact user_sort_le_trans _ _ _ _ h₂ h₁
  · exact user_sort_le_trans _ _ _ _ h₁ h₂

/-- Column comparison on orders is total. -/
lemma order_sort_le_total (col : String) (a b : Order) :
    order_sort_le col a b = true ∨ order_sort_le col b a = true := by
  unfold order_sort_le
  split <;> simp only [decide_eq_true_eq] <;> exact le_total _ _

/-- Column comparison on orders is transitive. -/
lemma order_sort_le_trans (col : String) (a b c : Order) :
    order_sort_le col a b = true → order_sort_le col b c = true →
    order_sort_le col a c = true := by
  unfold order_sort_le
  split <;> simp only [decide_eq_true_eq] <;> exact le_trans

/-- The order `ORDER BY` relation is total. -/
lemma order_order_rel_total (sort_by sort_order : String) (a b : Order) :
    order_order_rel sort_by sort_order a b ∨ order_order_rel sort_by sort_order b a := by
  unfold order_order_rel
  split_ifs <;> exact order_sort_le_total _ _ _

/-- The order `ORDER BY` relation is transitive. -/
lemma order_order_rel_trans (sort_by sort_order : String) (a b c : Order) :
    order_order_rel sort_by sort_order a b → order_order_rel sort_by sort_order b c →
    order_order_rel sort_by sort_order a c := by
  unfold order_order_rel
  split_ifs <;> intro h₁ h₂
  · exact order_sort_le_trans _ _ _ _ h₂ h₁
  · exact order_sort_le_trans _ _ _ _ h₁ h₂

/-- `get_products` only sees `sort_by` through the resolved column. -/
lemma get_products_sort_key_congr (db : List Product) (skip limit : Nat)
    (search category brand : Option String) (min_price max_price : Option Int)
    (sb₁ sb₂ sort_order : String) (hkey : product_sort_key sb₁ = product_sort_key sb₂) :
    get_products db skip limit search category brand min_price max_price sb₁ sort_order
      = get_products db skip limit search category brand min_price max_price sb₂ sort_order := by
  simp only [get_products]
  rw [insertionSort_ext (product_order_rel sb₁ sort_order) (product_order_rel sb₂ sort_order)
    (by intro a b; unfold product_order_rel; rw [hkey]) _]

/-- `get_users` only sees `sort_by` through the resolved column. -/
lemma get_users_sort_key_congr (db : List User) (skip limit : Nat)
    (search city country : Option String)
    (sb₁ sb₂ sort_order : String) (hkey : user_sort_key sb₁ = user_sort_key sb₂) :
    get_users db skip limit search city country sb₁ sort_order
      = get_users db skip limit search city country sb₂ sort_order := by
  simp only [get_users]
  rw [insertionSort_ext (user_order_rel sb₁ sort_order) (user_order_rel sb₂ sort_order)
    (by intro a b; unfold user_order_rel; rw [hkey]) _]

/-- `get_orders` only sees `sort_by` through the resolved column. -/
lemma get_orders_sort_key_congr (db : List Order) (skip limit : Nat)
    (user_id : Option Nat) (status : Option String)
    (sb₁ sb₂ sort_order : String) (hkey : order_sort_key sb₁ = order_sort_key sb₂) :
    get_orders db skip limit user_id status sb₁ sort_order
      = get_orders db skip limit user_id status sb₂ sort_order := by
  simp only [get_orders]
  rw [insertionSort_ext (order_order_rel sb₁ sort_order) (order_order_rel sb₂ sort_order)
    (by intro a b; unfold order_order_rel; rw [hkey]) _]

/-- The items of `get_products` are sorted by its `ORDER BY` relation. -/
lemma get_products_items_sorted (db : List Product) (skip limit : Nat)
    (search category brand : Option String) (min_price max_price : Option Int)
    (sort_by sort_order : String) :
    List.Sorted (product_order_rel sort_by sort_order)
      (get_products db skip limit search category brand min_price max_price
        sort_by sort_order).items := by
  haveI : IsTotal Product (product_order_rel sort_by sort_order) :=
    ⟨product_order_rel_total sort_by sort_order⟩
  haveI : IsTrans Product (product_order_rel sort_by sort_order) :=
    ⟨product_order_rel_trans sort_by sort_order⟩
  exact List.Pairwise.sublist
    ((List.take_sublist _ _).trans (List.drop_sublist _ _))
    (List.sorted_insertionSort _ _)

/-- The items of `get_users` are sorted by its `ORDER BY` relation. -/
lemma get_users_items_sorted (db : List User) (skip limit : Nat)
    (search city country : Option String) (sort_by sort_order : String) :
    List.Sorted (user_order_rel sort_by sort_order)
      (get_users db skip limit search city country sort_by sort_order).items := by
  haveI : IsTotal User (user_order_rel sort_by sort_order) :=
    ⟨user_order_rel_total sort_by sort_order⟩
  haveI : IsTrans User (user_order_rel sort_by sort_order) :=
    ⟨user_order_rel_trans sort_by sort_order⟩
  exact List.Pairwise.sublist
    ((List.take_sublist _ _).trans (List.drop_sublist _ _))
    (List.sorted_insertionSort _ _)

/-- The items of `get_orders` are sorted by its `ORDER BY` relation. -/
lemma get_orders_items_sorted (db : List Order) (skip limit : Nat)
    (user_id : Option Nat) (status : Option String) (sort_by sort_order : String) :
    List.Sorted (order_order_rel sort_by sort_order)
      (get_orders db skip limit user_id status sort_by sort_order).items := by
  haveI : IsTotal Order (order_order_rel sort_by sort_order) :=
    ⟨order_order_rel_total sort_by sort_order⟩
  haveI : IsTrans Order (order_order_rel sort_by sort_order) :=
    ⟨order_order_rel_trans sort_by sort_order⟩
  exact List.Pairwise.sublist
    ((List.take_sublist _ _).trans (List.drop_sublist _ _))
    (List.sorted_insertionSort _ _)

/-- C6 is false as stated: at the concrete input `sort_by = "bogus"`,
`sort_order = "desc"`, the fallback sorts by `id` DESCENDING — the requested
direction is still applied, so the result is not in ascending id order. -/
theorem c6_sort_fallback_counterexample :
    ((get_products [prodA, prodB] 0 10 none none none none none "bogus" "desc").items.map
        Product.id = [2, 1])
    ∧ ¬ List.Sorted (fun a b : Nat => a ≤ b)
        ((get_products [prodA, prodB] 0 10 none none none none none "bogus" "desc").items.map
          Product.id) := by
  constructor
  · decide
  · decide

/-- C6 (amended): for a `sort_by` outside the entity's column set the
outcome depends on attribute resolution.  A name resolving to no attribute
of the model class does not fail: it falls back to the identity column `id`
— but with the REQUESTED `sort_order` still applied, so the call behaves
exactly like `sort_by = "id"` with the same direction (not forced
ascending).  A name resolving to a non-column class attribute (a
relationship, `metadata`, a dunder, …) makes the operation fail with an
error instead of falling back.  And for every column sort field, the items
come back ordered by that named field in the requested direction. -/
theorem c6_sort_fallback_amended :
    (∀ (resolves : String → Bool) (db : List Product) (skip limit : Nat)
        (search category brand : Option String) (min_price max_price : Option Int)
        (sort_by sort_order : String),
        sort_by ∉ product_columns → resolves sort_by = false →
        get_products_checked resolves db skip limit search category brand min_price max_price
            sort_by sort_order
          = Except.ok (get_products db skip limit search category brand min_price max_price
              sort_by sort_order)
        ∧ get_products db skip limit search category brand min_price max_price sort_by sort_order
          = get_products db skip limit search category brand min_price max_price
              "id" sort_order)
    ∧ (∀ (resolves : String → Bool) (db : List Product) (skip limit : Nat)
        (search category brand : Option String) (min_price max_price : Option Int)
        (sort_by sort_order : String),
        sort_by ∉ product_columns → resolves sort_by = true →
        get_products_checked resolves db skip limit search category brand min_price max_price
            sort_by sort_order = Except.error ())
    ∧ (∀ (db : List Product) (skip limit : Nat) (search category brand : Option String)
        (min_price max_price : Option Int) (sort_by sort_order : String),
        sort_by ∈ product_columns →
        List.Sorted (fun a b : Product =>
            (if py_lower sort_order = "desc" then product_sort_le sort_by b a
             else product_sort_le sort_by a b) = true)
          (get_products db skip limit search category brand min_price max_price
            sort_by sort_order).items)
    ∧ (∀ (resolves : String → Bool) (db : List User) (skip limit : Nat)
        (search city country : Option String) (sort_by sort_order : String),
        sort_by ∉ user_columns → resolves sort_by = false →
        get_users_checked resolves db skip limit search city country sort_by sort_order
          = Except.ok (get_users db skip limit search city country sort_by sort_order)
        ∧ get_users db skip limit search city country sort_by sort_order
          = get_users db skip limit search city country "id" sort_order)
    ∧ (∀ (resolves : String → Bool) (db : List User) (skip limit : Nat)
        (search city country : Option String) (sort_by sort_order : String),
        sort_by ∉ user_columns → resolves sort_by = true →
        get_users_checked resolves db skip limit search city country sort_by sort_order
          = Except.error ())
    ∧ (∀ (db : List User) (skip limit : Nat) (search city country : Option String)
        (sort_by sort_order : String),
        sort_by ∈ user_columns →
        List.Sorted (fun a b : User =>
            (if py_lower sort_order = "desc" then user_sort_le sort_by b a
             else user_sort_le sort_by a b) = true)
          (get_users db skip limit search city country sort_by sort_order).items)
    ∧ (∀ (resolves : String → Bool) (db : List Order) (skip limit : Nat)
        (user_id : Option Nat) (status : Option String) (sort_by sort_order : String),
        sort_by ∉ order_columns → resolves sort_by = false →
        get_orders_checked resolves db skip limit user_id status sort_by sort_order
          = Except.ok (get_orders db skip limit user_id status sort_by sort_order)
        ∧ get_orders db skip limit user_id status sort_by sort_order
          = get_orders db skip limit user_id status "id" sort_order)
    ∧ (∀ (resolves : String → Bool) (db : List Order) (skip limit : Nat)
        (user_id : Option Nat) (status : Option String) (sort_by sort_order : String),
        sort_by ∉ order_columns → resolves sort_by = true →
        get_orders_checked resolves db skip limit user_id status sort_by sort_order
          = Except.error ())
    ∧ (∀ (db : List Order) (skip limit : Nat) (user_id : Option Nat) (status : Option String)
        (sort_by sort_order : String),
        sort_by ∈ order_columns →
        List.Sorted (fun a b : Order =>
            (if py_lower sort_order = "desc" then order_sort_le sort_by b a
             else order_sort_le sort_by a b) = true)
          (get_orders db skip limit user_id status sort_by sort_order).items) := by
  refine ⟨?_, ?_, ?_, ?_, ?_, ?_, ?_, ?_, ?_⟩
  · intro resolves db skip limit search category brand min_price max_price sort_by sort_order
      hno hres
    have hcongr := get_products_sort_key_congr db skip limit search category brand min_price
      max_price sort_by "id" sort_order
      (by unfold product_sort_key; rw [if_neg hno, if_pos (by decide)])
    refine ⟨?_, hcongr⟩
    simp only [get_products_checked, product_getattr, if_neg hno, hres, Bool.false_eq_true,
      if_false]
    rw [hcongr]
  · intro resolves db skip limit search category brand min_price max_price sort_by sort_order
      hno hres
    simp only [get_products_checked, product_getattr, if_neg hno, hres, if_true]
  · intro db skip limit search category brand min_price max_price sort_by sort_order hmem
    have hkey : product_sort_key sort_by = sort_by := if_pos hmem
    exact (get_products_items_sorted db skip limit search category brand min_price max_price
      sort_by sort_order).imp (by intro a b h; unfold product_order_rel at h; rwa [hkey] at h)
  · intro resolves db skip limit search city country sort_by sort_order hno hres
    have hcongr := get_users_sort_key_congr db skip limit search city country
      sort_by "id" sort_order
      (by unfold user_sort_key; rw [if_neg hno, if_pos (by decide)])
    refine ⟨?_, hcongr⟩
    simp only [get_users_checked, user_getattr, if_neg hno, hres, Bool.false_eq_true, if_false]
    rw [hcongr]
  · intro resolves db skip limit search city country sort_by sort_order hno hres
    simp only [get_users_checked, user_getattr, if_neg hno, hres, if_true]
  · intro db skip limit search city country sort_by sort_order hmem
    have hkey : user_sort_key sort_by = sort_by := if_pos hmem
    exact (get_users_items_sorted db skip limit search city country
      sort_by sort_order).imp (by intro a b h; unfold user_order_rel at h; rwa [hkey] at h)
  · intro resolves db skip limit user_id status sort_by sort_order hno hres
    have hcongr := get_orders_sort_key_congr db skip limit user_id status
      sort_by "id" sort_order
      (by unfold order_sort_key; rw [if_neg hno, if_pos (by decide)])
    refine ⟨?_, hcongr⟩
    simp only [get_orders_checked, order_getattr, if_neg hno, hres, Bool.false_eq_true, if_false]
    rw [hcongr]
  · intro resolves db skip limit user_id status sort_by sort_order hno hres
    simp only [get_orders_checked, order_getattr, if_neg hno, hres, if_true]
  · intro db skip limit user_id status sort_by sort_order hmem
    have hkey : order_sort_key sort_by = sort_by := if_pos hmem
    exact (get_orders_items_sorted db skip limit user_id status
      sort_by sort_order).imp (by intro a b h; unfold order_order_rel at h; rwa [hkey] at h)

/-- Witness for C6 (amended), with the resolution table instantiated to the
source-guaranteed non-column attributes: the non-resolving name `"bogus"`
with `desc` completes and behaves exactly like `sort_by = "id"` with `desc`;
the resolving non-column name `"metadata"` makes the operation fail; the
column `"price"` yields price-sorted items. -/
theorem c6_sort_fallback_amended_witness :
    (get_products_checked (fun s => decide (s ∈ product_noncolumn_attrs)) [prodA, prodB] 0 10
        none none none none none "bogus" "desc"
      = Except.ok (get_products [prodA, prodB] 0 10 none none none none none "bogus" "desc"))
    ∧ (get_products [prodA, prodB] 0 10 none none none none none "bogus" "desc"
      = get_products [prodA, prodB] 0 10 none none none none none "id" "desc")
    ∧ (get_products_checked (fun s => decide (s ∈ product_noncolumn_attrs)) [prodA, prodB] 0 10
        none none none none none "metadata" "asc"
      = Except.error ())
    ∧ List.Sorted (fun a b : Product =>
        (if py_lower "asc" = "desc" then product_sort_le "price" b a
         else product_sort_le "price" a b) = true)
      (get_products [prodA, prodB] 0 10 none none none none none "price" "asc").items :=
  ⟨(c6_sort_fallback_amended.1 (fun s => decide (s ∈ product_noncolumn_attrs))
      [prodA, prodB] 0 10 none none none none none "bogus" "desc" (by decide) (by decide)).1,
   (c6_sort_fallback_amended.1 (fun s => decide (s ∈ product_noncolumn_attrs))
      [prodA, prodB] 0 10 none none none none none "bogus" "desc" (by decide) (by decide)).2,
   c6_sort_fallback_amended.2.1 (fun s => decide (s ∈ product_noncolumn_attrs))
      [prodA, prodB] 0 10 none none none none none "metadata" "asc" (by decide) (by decide),
   c6_sort_fallback_amended.2.2.1 [prodA, prodB] 0 10 none none none none none "price" "asc"
      (by decide)⟩

/-! ### C7 — the order-status enum -/

/-- C7 names a real defect: the seeder draws the status `"processing"`, which
the status filter's closed enum does not accept, while the filter accepts
`"confirmed"`, a status no seeded order ever has.  The spec's single closed
enum {pending, processing, shipped, delivered, cancelled} (which matches the
seeder) is not what the filter schema implements. -/
theorem c7_order_status_enum_mismatch :
    "processing" ∈ seed_order_statuses
    ∧ order_status_filter_accepted "processing" = false
    ∧ "confirmed" ∈ order_status_values
    ∧ "confirmed" ∉ seed_order_statuses := by
  decide

/-! ### C8 — deleting a non-existent key -/

/-- C8 is false as stated: on an empty store, `delete "k"` returns
`bool(0) = False`, the failure outcome, not success. -/
theorem c8_delete_missing_key_counterexample :
    (cache_delete false ⟨[], 0⟩ "k").2 = false := by
  decide

/-- Keys filtered out are no longer found. -/
lemma lookup_filter_ne {β : Type} (k : String) :
    ∀ l : List (String × β), (l.filter fun kv => kv.1 ≠ k).lookup k = none := by
  intro l
  induction l with
  | nil => rfl
  | cons kv tl ih =>
    obtain ⟨k', b⟩ := kv
    rw [List.filter_cons]
    by_cases h : k' = k
    · rw [if_neg (by simpa using h)]
      exact ih
    · rw [if_pos (by simpa using h), List.lookup_cons]
      have hb : (k == k') = false := beq_false_of_ne (fun hk => h hk.symm)
      rw [hb]
      exact ih

/-- On a duplicate-free keyspace, the `DEL` count is non-zero exactly when
the key is live. -/
lemma delete_count_iff (now : Nat) (k : String) :
    ∀ l : List (String × RedisEntry), (l.map Prod.fst).Nodup →
      ((l.countP fun kv => decide (kv.1 = k ∧ now < kv.2.expiry)) ≠ 0
        ↔ (redis_get ⟨l, now⟩ k).isSome = true) := by
  intro l
  induction l with
  | nil => simp [redis_get]
  | cons kv tl ih =>
    intro hnd
    obtain ⟨k', e⟩ := kv
    have hknotin : k' ∉ tl.map Prod.fst := (List.nodup_cons.mp (by simpa using hnd)).1
    have hnd' : (tl.map Prod.fst).Nodup := (List.nodup_cons.mp (by simpa using hnd)).2
    by_cases hk : k' = k
    · subst hk
      have hzero : (tl.countP fun kv => decide (kv.1 = k' ∧ now < kv.2.expiry)) = 0 := by
        rw [List.countP_eq_zero]
        intro a ha
        simp only [decide_eq_true_eq, not_and]
        intro hak _
        exact hknotin (hak ▸ List.mem_map_of_mem Prod.fst ha)
      simp only [List.countP_cons, hzero, Nat.zero_add, redis_get, List.lookup_cons_self]
      by_cases hexp : now < e.expiry <;> simp [hexp]
    · have hb : (k == k') = false := beq_false_of_ne (fun hkk => hk hkk.symm)
      have hlook : redis_get ⟨(k', e) :: tl, now⟩ k = redis_get ⟨tl, now⟩ k := by
        simp only [redis_get, List.lookup_cons, hb]
      have hcnt : (((k', e) :: tl).countP fun kv => decide (kv.1 = k ∧ now < kv.2.expiry))
          = tl.countP fun kv => decide (kv.1 = k ∧ now < kv.2.expiry) := by
        simp [List.countP_cons, hk]
      rw [hlook, hcnt]
      exact ih hnd'

/-- C8 (amended): with a live backend, `delete(key)` reports success exactly
when the key was present and unexpired — deleting a non-existent key raises
no error but returns the `False`/failure outcome — and afterwards the key is
gone from the store. -/
theorem c8_delete_success_iff_present (st : RedisState) (k : String)
    (hnd : (st.store.map Prod.fst).Nodup) :
    ((cache_delete false st k).2 = true ↔ (redis_get st k).isSome = true)
    ∧ redis_get (cache_delete false st k).1 k = none := by
  constructor
  · have h := delete_count_iff st.now k st.store hnd
    simpa [cache_delete] using h
  · simp only [cache_delete, if_neg (by simp : ¬ (false = true)), redis_get]
    rw [lookup_filter_ne]

/-- Witness for C8 (amended): on a store holding a single live `"a"` entry,
deleting `"a"` succeeds and removes it. -/
theorem c8_delete_success_iff_present_witness :
    (((cache_delete false ⟨[("a", ⟨"x", 10⟩)], 0⟩ "a").2 = true
        ↔ (redis_get ⟨[("a", ⟨"x", 10⟩)], 0⟩ "a").isSome = true)
      ∧ redis_get (cache_delete false ⟨[("a", ⟨"x", 10⟩)], 0⟩ "a").1 "a" = none) :=
  c8_delete_success_iff_present ⟨[("a", ⟨"x", 10⟩)], 0⟩ "a" (by decide)

/-! ### C9 — the `cache_cleared` field of truncate-all -/

/-- C9 is false as stated: with the cache backend failing (`clear_pattern`
absorbs the error, removes nothing from the non-empty store and returns 0),
a successful truncate still answers `cache_cleared = true`. -/
theorem c9_cache_cleared_counterexample :
    ((truncate_all_data_endpoint ⟨⟨[], [], []⟩, ⟨[], [], []⟩⟩ (fun _ => false) true
        ⟨[("a", ⟨"x", 10⟩)], 0⟩).1 = .ok 0 0 0 true)
    ∧ (truncate_all_data_endpoint ⟨⟨[], [], []⟩, ⟨[], [], []⟩⟩ (fun _ => false) true
        ⟨[("a", ⟨"x", 10⟩)], 0⟩).2.2 = ⟨[("a", ⟨"x", 10⟩)], 0⟩
    ∧ (clear_pattern true ⟨[("a", ⟨"x", 10⟩)], 0⟩ "*").2 = 0
    ∧ (⟨[("a", ⟨"x", 10⟩)], 0⟩ : RedisState).store ≠ [] := by
  refine ⟨?_, ?_, ?_, ?_⟩ <;> decide

/-- C9 (amended): whenever the truncate mutation succeeds, the endpoint
reports `cache_cleared = true` unconditionally — the `clear_pattern` return
value is dropped, so the flag does not reflect whether the cache invalidation
actually succeeded. -/
theorem c9_cache_cleared_always_true (s : Session) (oracle : Nat → Bool)
    (cacheFail : Bool) (st : RedisState)
    (hsucc : (truncate_all_data s oracle).2.success = true) :
    (truncate_all_data_endpoint s oracle cacheFail st).1
      = .ok (truncate_all_data s oracle).2.orders_deleted
          (truncate_all_data s oracle).2.users_deleted
          (truncate_all_data s oracle).2.products_deleted true := by
  simp [truncate_all_data_endpoint, hsucc]

/-- Witness for C9 (amended): an empty database, a failing cache backend —
the response still carries `cache_cleared = true`. -/
theorem c9_cache_cleared_always_true_witness :
    (truncate_all_data_endpoint ⟨⟨[prodA], [], []⟩, ⟨[prodA], [], []⟩⟩ (fun _ => false) true
        ⟨[("a", ⟨"x", 10⟩)], 0⟩).1
      = .ok (truncate_all_data ⟨⟨[prodA], [], []⟩, ⟨[prodA], [], []⟩⟩
            (fun _ => false)).2.orders_deleted
          (truncate_all_data ⟨⟨[prodA], [], []⟩, ⟨[prodA], [], []⟩⟩
            (fun _ => false)).2.users_deleted
          (truncate_all_data ⟨⟨[prodA], [], []⟩, ⟨[prodA], [], []⟩⟩
            (fun _ => false)).2.products_deleted true :=
  c9_cache_cleared_always_true ⟨⟨[prodA], [], []⟩, ⟨[prodA], [], []⟩⟩ (fun _ => false) true
    ⟨[("a", ⟨"x", 10⟩)], 0⟩ rfl

/-! ### C10 — the size bound of the list endpoints -/

/-- C10: every list endpoint rejects a requested `size` outside `[1, 1000]`
with a bad-request signal, leaving the cache state untouched (the rejection
happens before any cache or storage work), and `1000` itself is accepted:
a request with `size = 1000` and otherwise valid parameters produces a
payload, not a bad request. -/
theorem c10_list_size_bound (size : Int) (hsize : size < 1 ∨ 1000 < size) :
    (∀ (ctx : CacheCtx (PageResult Product)) (gF sF : Bool) (p : ProductQueryParams)
        (st : RedisState) (db : List Product), p.size = size →
        ∃ d, get_products_endpoint ctx gF sF p st db = (.badRequest d, st))
    ∧ (∀ (ctx : CacheCtx (PageResult User)) (gF sF : Bool) (p : UserQueryParams)
        (st : RedisState) (db : List User), p.size = size →
        ∃ d, get_users_endpoint ctx gF sF p st db = (.badRequest d, st))
    ∧ (∀ (ctx : CacheCtx (PageResult Order)) (gF sF : Bool) (p : OrderQueryParams)
        (st : RedisState) (db : List Order), p.size = size →
        ∃ d, get_orders_endpoint ctx gF sF p st db = (.badRequest d, st))
    ∧ (∀ (ctx : CacheCtx (PageResult Product)) (gF sF : Bool) (p : ProductQueryParams)
        (st : RedisState) (db : List Product),
        p.size = 1000 → 1 ≤ p.page → (p.sort_order = "asc" ∨ p.sort_order = "desc") →
        ∃ v st', get_products_endpoint ctx gF sF p st db = (.ok v, st')) := by
  refine ⟨?_, ?_, ?_, ?_⟩
  · intro ctx gF sF p st db hps
    unfold get_products_endpoint
    by_cases h1 : p.sort_order ≠ "asc" ∧ p.sort_order ≠ "desc"
    · exact ⟨_, by rw [if_pos h1]⟩
    · rw [if_neg h1]
      by_cases h2 : p.page < 1
      · exact ⟨_, by rw [if_pos h2]⟩
      · rw [if_neg h2, if_pos (hps ▸ hsize)]
        exact ⟨_, rfl⟩
  · intro ctx gF sF p st db hps
    unfold get_users_endpoint
    by_cases h1 : p.sort_order ≠ "asc" ∧ p.sort_order ≠ "desc"
    · exact ⟨_, by rw [if_pos h1]⟩
    · rw [if_neg h1]
      by_cases h2 : p.page < 1
      · exact ⟨_, by rw [if_pos h2]⟩
      · rw [if_neg h2, if_pos (hps ▸ hsize)]
        exact ⟨_, rfl⟩
  · intro ctx gF sF p st db hps
    unfold get_orders_endpoint
    by_cases h1 : p.sort_order ≠ "asc" ∧ p.sort_order ≠ "desc"
    · exact ⟨_, by rw [if_pos h1]⟩
    · rw [if_neg h1]
      by_cases h2 : p.page < 1
      · exact ⟨_, by rw [if_pos h2]⟩
      · rw [if_neg h2, if_pos (hps ▸ hsize)]
        exact ⟨_, rfl⟩
  · intro ctx gF sF p st db hps hpage hord
    have h1 : ¬ (p.sort_order ≠ "asc" ∧ p.sort_order ≠ "desc") := by
      rcases hord with h | h <;> simp [h]
    have h2 : ¬ (p.page < 1) := by omega
    have h3 : ¬ (p.size < 1 ∨ 1000 < p.size) := by omega
    simp only [get_products_endpoint, if_neg h1, if_neg h2, if_neg h3]
    rcases hcg : cache_get ctx.loads gF st (generate_cache_key ctx.h "products"
        [("page", some (toString p.page)), ("size", some (toString p.size)),
         ("search", p.search), ("category", p.category), ("brand", p.brand),
         ("min_price", p.min_price.map toString), ("max_price", p.max_price.map toString),
         ("sort_by", some p.sort_by), ("sort_order", some p.sort_order)]) with _ | c
    · exact ⟨_, _, rfl⟩
    · exact ⟨c, st, rfl⟩

/-- Witness for C10: a concrete `size = 1001` products request is rejected
with the cache untouched. -/
theorem c10_list_size_bound_witness :
    ∃ d, get_products_endpoint ⟨fun s => s, fun _ => "x", fun _ => none⟩ false false
        ⟨1, 1001, none, none, none, none, none, "id", "asc"⟩ ⟨[], 0⟩ []
      = (.badRequest d, ⟨[], 0⟩) :=
  (c10_list_size_bound 1001 (by decide)).1 ⟨fun s => s, fun _ => "x", fun _ => none⟩
    false false ⟨1, 1001, none, none, none, none, none, "id", "asc"⟩ ⟨[], 0⟩ [] rfl

end Backend
